import Mathlib

/-!
Verification of `src/components/PlantScanner.tsx` (Herbal_Garden repository).

The file shallowly embeds the plant-scanner component: the untrusted
classification-service response schema, the normalization performed inside
`handleImageCapture`, the toast notifications, the outbound HTTP request,
the component state (`isScanning`, `imagePreview`, `result`, file-input
value) and the `handleClear` reset.  Probabilities are modelled as rationals
(the JS numbers of interest are finite); `toFixed(1)` is modelled at
rational precision with JS's tie-breaking (ties go to the larger value).
-/

namespace HerbalGarden

/-- The `wiki_description` sub-object of a suggestion's `plant_details`;
every field of the untrusted response is optional. -/
structure WikiDescription where
  value : Option String
  deriving Repr, DecidableEq

/-- The `taxonomy` sub-object of a suggestion's `plant_details`. -/
structure Taxonomy where
  family : Option String
  genus : Option String
  deriving Repr, DecidableEq

/-- The `plant_details` sub-object of a service suggestion. -/
structure PlantDetails where
  common_names : Option (List String)
  wiki_description : Option WikiDescription
  taxonomy : Option Taxonomy
  deriving Repr, DecidableEq

/-- One element of the service response's `suggestions` array. -/
structure Suggestion where
  plant_name : Option String
  probability : Option ℚ
  plant_details : Option PlantDetails
  deriving Repr, DecidableEq

/-- The raw classification response: `data` after `response.json()`.
The `suggestions` array itself may be absent. -/
structure ClassificationResponseRaw where
  suggestions : Option (List Suggestion)
  deriving Repr, DecidableEq

/-- The `PlantIdentification` interface of PlantScanner.tsx: every field
is optional (`?:` in TypeScript). -/
structure PlantIdentification where
  common_names : Option (List String)
  scientific_name : Option String
  probability : Option ℚ
  wiki_description : Option WikiDescription
  taxonomy : Option Taxonomy
  deriving Repr, DecidableEq

/-- The normalization step inside `handleImageCapture` (PlantScanner.tsx
lines 64-72).  The guard `data?.suggestions?.length > 0` selects the success
branch, where `topResult = data.suggestions[0]` and the record is built with
  `common_names: topResult.plant_details?.common_names || []`
(JS `||` substitutes `[]` exactly when the optional chain is undefined,
since any array is truthy),
  `scientific_name: topResult.plant_name`,
  `probability: topResult.probability`,
  `wiki_description: topResult.plant_details?.wiki_description`,
  `taxonomy: topResult.plant_details?.taxonomy`.
`none` models the guard failing (empty or absent suggestion list): the
no-match branch is taken and no record is built. -/
def normalize (data : ClassificationResponseRaw) : Option PlantIdentification :=
  match data.suggestions with
  | some (topResult :: _) =>
      some
        { common_names :=
            some ((topResult.plant_details.bind PlantDetails.common_names).getD [])
          scientific_name := topResult.plant_name
          probability := topResult.probability
          wiki_description := topResult.plant_details.bind PlantDetails.wiki_description
          taxonomy := topResult.plant_details.bind PlantDetails.taxonomy }
  | _ => none

/-- The shadcn toast variant: the code passes `variant: "destructive"` for
the no-match and error toasts and omits the key (the default variant) for
the success toast. -/
inductive ToastVariant where
  | standard
  | destructive
  deriving Repr, DecidableEq

/-- One call to `toast({ title, description, variant })`. -/
structure Toast where
  title : String
  description : String
  variant : ToastVariant
  deriving Repr, DecidableEq

/-- JS template-literal interpolation of a possibly-undefined string:
an undefined value prints as the text `undefined`. -/
def jsStr (o : Option String) : String := o.getD "undefined"

/-- An opaque captured file (`event.target.files?.[0]`). -/
structure RawFile where
  name : String
  deriving Repr, DecidableEq

/-- The component state of `PlantScanner`: the `isScanning`, `imagePreview`
and `result` React states plus the file input's `value` (reset by
`handleClear`). -/
structure ScannerState where
  isScanning : Bool
  imagePreview : Option String
  result : Option PlantIdentification
  fileInputValue : String
  deriving Repr, DecidableEq

/-- The initial component state (the spec's `Idle`): not scanning, no
preview, no result, empty file input. -/
def idleState : ScannerState :=
  { isScanning := false, imagePreview := none, result := none, fileInputValue := "" }

/-- Lines 40-41 of `handleImageCapture`: `setIsScanning(true);
setResult(null)` run synchronously at the start of a capture. -/
def startScan (s : ScannerState) : ScannerState :=
  { s with isScanning := true, result := none }

/-- The failure modes that make the `try` block of `handleImageCapture`
reject: `convertImageToBase64` fails, `fetch` fails at the transport
level, or `response.json()` rejects on a malformed body. -/
inductive FailureKind where
  | encodingError
  | networkError
  | malformedBody
  deriving Repr, DecidableEq

/-- The outcome of the awaited classification attempt: a parsed JSON body,
or a rejection of kind `FailureKind`. -/
inductive FetchOutcome where
  | success (data : ClassificationResponseRaw)
  | failure (k : FailureKind)
  deriving Repr, DecidableEq

/-- The completion of `handleImageCapture`'s `try`/`catch`/`finally`
(lines 47-93), applied to whatever state is current when the awaited
outcome arrives.  Success branch: `setResult` with the normalized record
and a success toast `"Plant Identified!"` / `` `Found: ${topResult.plant_name}` ``.
No-match branch: a destructive toast `"No Match Found"`, no `setResult`.
Catch branch: a destructive toast `"Error"`, no `setResult`.  The
`finally` block runs `setIsScanning(false)` on every path. -/
def handleCompletion (s : ScannerState) (o : FetchOutcome) :
    ScannerState × List Toast :=
  match o with
  | FetchOutcome.success data =>
      match normalize data with
      | some rec =>
          ({ s with result := some rec, isScanning := false },
           [{ title := "Plant Identified!"
              description := "Found: " ++ jsStr rec.scientific_name
              variant := ToastVariant.standard }])
      | none =>
          ({ s with isScanning := false },
           [{ title := "No Match Found"
              description := "Try a clearer image or different angle."
              variant := ToastVariant.destructive }])
  | FetchOutcome.failure _ =>
      ({ s with isScanning := false },
       [{ title := "Error"
          description := "Unable to identify this plant."
          variant := ToastVariant.destructive }])

/-- One full run of `handleImageCapture` (lines 36-94) with no interleaved
user action: if `event.target.files?.[0]` is absent the handler returns at
once with no state change and no toast; otherwise the scanning flag is set,
the previous result cleared, the preview data-URL applied by the
`FileReader` callback, and the awaited outcome handled by
`handleCompletion`. -/
def handleImageCapture (s : ScannerState) (file : Option RawFile)
    (preview : String) (o : FetchOutcome) : ScannerState × List Toast :=
  match file with
  | none => (s, [])
  | some _ => handleCompletion { startScan s with imagePreview := some preview } o

/-- `handleClear` (lines 96-100): `setImagePreview(null); setResult(null)`
and reset of the file input's value.  It does not touch `isScanning`. -/
def handleClear (s : ScannerState) : ScannerState :=
  { s with imagePreview := none, result := none, fileInputValue := "" }

/-- The JSON body of the classification request. -/
structure RequestBody where
  images : List String
  similar_images : Bool
  deriving Repr, DecidableEq

/-- The outbound HTTP request as built by `fetch(...)`. -/
structure HttpRequest where
  url : String
  method : String
  headers : List (String × String)
  body : RequestBody
  deriving Repr, DecidableEq

/-- The `fetch` call of `handleImageCapture` (lines 50-60): POST to the
fixed endpoint with the JSON content type, the `Api-Key` credential header,
and body `{ images: [base64Image], similar_images: true }`. -/
def classifyRequest (apiKey : String) (base64Image : String) : HttpRequest :=
  { url := "https://api.plant.id/v2/identify"
    method := "POST"
    headers := [("Content-Type", "application/json"), ("Api-Key", apiKey)]
    body := { images := [base64Image], similar_images := true } }

/-- Rounding to the nearest integer, ties to the larger value — the
tie-breaking ECMA-262 specifies for `toFixed`.  Written as an executable
integer computation: the floor of `q + 1/2` (`Rat.floor_def`). -/
def jsRound (q : ℚ) : ℤ := (q + 1/2).num / (q + 1/2).den

/-- Print a number of tenths as a decimal string with one digit after the
point. -/
def tenthsString (n : ℤ) : String :=
  (if n < 0 then "-" else "") ++ toString (n.natAbs / 10) ++ "." ++ toString (n.natAbs % 10)

/-- JS `Number.prototype.toFixed(1)` at rational precision: the nearest
multiple of 1/10, ties going to the larger value, printed with one digit
after the point. -/
def fixed1 (q : ℚ) : String :=
  tenthsString (jsRound (q * 10))

/-- The confidence line of the render (lines 172-179): it is rendered only
when `result.probability` is truthy — present and nonzero — and then shows
`(result.probability * 100).toFixed(1)` followed by `%`.  `none` means no
confidence string is displayed. -/
def displayedConfidence (r : PlantIdentification) : Option String :=
  match r.probability with
  | some p => if p = 0 then none else some (fixed1 (p * 100) ++ "%")
  | none => none

/-- The spec's Monstera scenario suggestion: one suggestion with
probability 0.97 and full details except the description. -/
def monsteraSuggestion : Suggestion :=
  { plant_name := some "Monstera deliciosa"
    probability := some (97/100)
    plant_details := some
      { common_names := some ["Swiss cheese plant"]
        wiki_description := none
        taxonomy := some { family := some "Araceae", genus := some "Monstera" } } }

/-- A concrete response carrying only the Monstera suggestion. -/
def respMonstera : ClassificationResponseRaw := ⟨some [monsteraSuggestion]⟩

/-- The record `normalize` builds from `respMonstera`. -/
def pidMonstera : PlantIdentification :=
  { common_names := some ["Swiss cheese plant"]
    scientific_name := some "Monstera deliciosa"
    probability := some (97/100)
    wiki_description := none
    taxonomy := some { family := some "Araceae", genus := some "Monstera" } }

/-- A low-probability first suggestion. -/
def rosaSuggestion : Suggestion :=
  { plant_name := some "Rosa canina", probability := some (2/10), plant_details := none }

/-- A high-probability second suggestion. -/
def bellisSuggestion : Suggestion :=
  { plant_name := some "Bellis perennis", probability := some (9/10), plant_details := none }

/-- A concrete response whose second suggestion has the higher
probability. -/
def respTwo : ClassificationResponseRaw := ⟨some [rosaSuggestion, bellisSuggestion]⟩

/-- A suggestion whose reported probability is 0. -/
def zeroSuggestion : Suggestion :=
  { plant_name := some "Ficus elastica", probability := some 0, plant_details := none }

/-- A concrete response carrying only the zero-probability suggestion. -/
def respZero : ClassificationResponseRaw := ⟨some [zeroSuggestion]⟩

/-- The record `normalize` builds from `respZero`. -/
def pidZero : PlantIdentification :=
  { common_names := some []
    scientific_name := some "Ficus elastica"
    probability := some 0
    wiki_description := none
    taxonomy := none }

/-- A suggestion with no `plant_details` sub-object at all. -/
def bareSuggestion : Suggestion :=
  { plant_name := some "Quercus robur", probability := some (5/10), plant_details := none }

/-- A concrete response carrying only the detail-less suggestion. -/
def respBare : ClassificationResponseRaw := ⟨some [bareSuggestion]⟩

/-- The record `normalize` builds from `respBare`. -/
def pidBare : PlantIdentification :=
  { common_names := some []
    scientific_name := some "Quercus robur"
    probability := some (5/10)
    wiki_description := none
    taxonomy := none }

/-- A concrete `Success` state: not scanning, preview shown, result
stored. -/
def successState : ScannerState :=
  { isScanning := false, imagePreview := some "data:img"
    result := some pidMonstera, fileInputValue := "" }

/-- `jsRound` agrees with Mathlib's round-half-up `round`. -/
theorem jsRound_eq_round (q : ℚ) : jsRound q = round q := by
  rw [round_eq, Rat.floor_def, jsRound]

/-- Evaluation rule for `jsRound` from two rational bounds. -/
theorem jsRound_of_bounds (q : ℚ) (n : ℤ) (h1 : (n : ℚ) ≤ q + 1/2)
    (h2 : q + 1/2 < (n : ℚ) + 1) : jsRound q = n := by
  rw [jsRound_eq_round, round_eq]
  exact Int.floor_eq_iff.mpr ⟨h1, h2⟩

/-- Claim C1: for every classification response whose suggestion list is
non-empty, normalization produces a record whose scientific name equals
the first suggestion's `plant_name` field verbatim — the first element is
taken as-is, whatever the rest of the list holds, with no re-ranking or
thresholding. -/
theorem normalize_top_scientific_name
    (resp : ClassificationResponseRaw) (top : Suggestion) (rest : List Suggestion)
    (h : resp.suggestions = some (top :: rest)) :
    ∃ rec : PlantIdentification,
      normalize resp = some rec ∧ rec.scientific_name = top.plant_name := by
  obtain ⟨sug⟩ := resp
  have hs : sug = some (top :: rest) := h
  subst hs
  exact ⟨_, rfl, rfl⟩

/-- Witness for C1 at a concrete response whose second suggestion carries
the higher probability: the first suggestion is still the one selected. -/
theorem normalize_top_scientific_name_witness :
    ∃ rec : PlantIdentification,
      normalize respTwo = some rec ∧
        rec.scientific_name = rosaSuggestion.plant_name :=
  normalize_top_scientific_name respTwo rosaSuggestion [bellisSuggestion] rfl

/-- Claim C2: for every response whose suggestion list is empty or absent,
normalization returns no record (`NoMatch`), the stored result stays
`none`, and the no-match failure path is taken instead of the success
path. -/
theorem normalize_noMatch
    (s : ScannerState) (f : RawFile) (pv : String) (resp : ClassificationResponseRaw)
    (h : resp.suggestions = none ∨ resp.suggestions = some []) :
    normalize resp = none ∧
      handleImageCapture s (some f) pv (FetchOutcome.success resp) =
        ({ s with isScanning := false, result := none, imagePreview := some pv },
         [{ title := "No Match Found"
            description := "Try a clearer image or different angle."
            variant := ToastVariant.destructive }]) := by
  obtain ⟨sug⟩ := resp
  rcases h with h | h
  · have hs : sug = none := h
    subst hs
    exact ⟨rfl, rfl⟩
  · have hs : sug = some [] := h
    subst hs
    exact ⟨rfl, rfl⟩

/-- Witness for C2 at the concrete empty-suggestions response. -/
theorem normalize_noMatch_witness :
    normalize ⟨some []⟩ = none ∧
      handleImageCapture idleState (some ⟨"leaf.jpg"⟩) "data:preview"
          (FetchOutcome.success ⟨some []⟩) =
        ({ idleState with
            isScanning := false
            result := none
            imagePreview := some "data:preview" },
         [{ title := "No Match Found"
            description := "Try a clearer image or different angle."
            variant := ToastVariant.destructive }]) :=
  normalize_noMatch idleState ⟨"leaf.jpg"⟩ "data:preview" ⟨some []⟩ (Or.inr rfl)

/-- Claim C3 (a code bug): the completion handler has no generation guard.
Concrete trace: a capture starts from `Idle`, the preview is applied, the
user clears the session while the request is outstanding, and the response
then arrives with one suggestion — the completion still stores the
identification record and emits the success toast for the cleared session
instead of discarding the stale response. -/
theorem stale_completion_applied_after_clear :
    handleCompletion
        (handleClear { startScan idleState with imagePreview := some "data:img" })
        (FetchOutcome.success respMonstera) =
      ({ isScanning := false, imagePreview := none, result := some pidMonstera,
         fileInputValue := "" },
       [{ title := "Plant Identified!"
          description := "Found: Monstera deliciosa"
          variant := ToastVariant.standard }]) := rfl

/-- Claim C4 counterexample: probability `0` is present in the stored
record, yet the truthiness guard `result.probability && ...` suppresses
the confidence line entirely, so the displayed confidence is not
`"0.0%"` — nothing is displayed at all. -/
theorem displayedConfidence_zero_counterexample :
    normalize respZero = some pidZero ∧
    pidZero.probability = some 0 ∧
    displayedConfidence pidZero = none ∧
    displayedConfidence pidZero ≠ some (fixed1 ((0 : ℚ) * 100) ++ "%") := by
  refine ⟨rfl, rfl, rfl, ?_⟩
  exact fun hcon => Option.noConfusion hcon

/-- Claim C4 (amended): the stored record keeps the service-reported
probability unmodified, and whenever that probability is present and
nonzero (JS-truthy) the displayed confidence equals `(p*100).toFixed(1)`
followed by `%`, computed only at presentation time; when the probability
is `0` the confidence line is suppressed by the truthiness guard. -/
theorem displayedConfidence_formula
    (resp : ClassificationResponseRaw) (top : Suggestion) (rest : List Suggestion)
    (p : ℚ) (h : resp.suggestions = some (top :: rest))
    (hp : top.probability = some p) :
    ∃ rec : PlantIdentification,
      normalize resp = some rec ∧ rec.probability = some p ∧
        (p ≠ 0 → displayedConfidence rec = some (fixed1 (p * 100) ++ "%")) := by
  obtain ⟨sug⟩ := resp
  have hs : sug = some (top :: rest) := h
  subst hs
  refine ⟨_, rfl, hp, fun hne => ?_⟩
  simp only [displayedConfidence, hp]
  rw [if_neg hne]

/-- Witness for C4 at the Monstera response: the stored probability is the
service's 0.97 and the displayed confidence evaluates to `"97.0%"`. -/
theorem displayedConfidence_formula_witness :
    (∃ rec : PlantIdentification,
        normalize respMonstera = some rec ∧ rec.probability = some (97/100) ∧
          ((97/100 : ℚ) ≠ 0 →
            displayedConfidence rec = some (fixed1 ((97/100) * 100) ++ "%"))) ∧
    fixed1 ((97/100 : ℚ) * 100) ++ "%" = "97.0%" := by
  constructor
  · exact displayedConfidence_formula respMonstera monsteraSuggestion [] (97/100) rfl rfl
  · unfold fixed1
    rw [jsRound_of_bounds _ 970 (by norm_num) (by norm_num)]
    decide

/-- Claim C5 counterexample: with `plant_details` absent the normalizer
stores `common_names = some []` — the `|| []` fallback writes an empty
placeholder list instead of leaving the field absent. -/
theorem commonNames_placeholder_counterexample :
    normalize respBare = some pidBare ∧
    pidBare.common_names = some [] ∧
    pidBare.common_names ≠ none := by
  refine ⟨rfl, rfl, ?_⟩
  exact fun hcon => Option.noConfusion hcon

/-- Claim C5 (amended): when the top suggestion's `plant_details` is
absent, taxonomy and description are left absent in the normalized record,
but common names is substituted with the empty list rather than left
absent. -/
theorem normalize_missing_details
    (resp : ClassificationResponseRaw) (top : Suggestion) (rest : List Suggestion)
    (h : resp.suggestions = some (top :: rest)) (hd : top.plant_details = none) :
    ∃ rec : PlantIdentification,
      normalize resp = some rec ∧ rec.taxonomy = none ∧
        rec.wiki_description = none ∧ rec.common_names = some [] := by
  obtain ⟨sug⟩ := resp
  have hs : sug = some (top :: rest) := h
  subst hs
  refine ⟨_, rfl, ?_, ?_, ?_⟩ <;> simp [hd]

/-- Witness for C5 at the concrete detail-less response. -/
theorem normalize_missing_details_witness :
    ∃ rec : PlantIdentification,
      normalize respBare = some rec ∧ rec.taxonomy = none ∧
        rec.wiki_description = none ∧ rec.common_names = some [] :=
  normalize_missing_details respBare bareSuggestion [] rfl rfl

/-- Claim C6: every failure of the asynchronous path — encoding failure,
transport failure, malformed response body — is caught by the single
`catch` and becomes the failed outcome: the scanning flag is dropped, no
record is stored, and exactly one destructive toast titled "Error" is
emitted; no success toast accompanies it.  The handler is a total
function of the outcome, so no rejection escapes unhandled. -/
theorem failure_single_error_toast
    (s : ScannerState) (f : RawFile) (pv : String) (k : FailureKind) :
    (handleImageCapture s (some f) pv (FetchOutcome.failure k)).fst =
      { s with isScanning := false, result := none, imagePreview := some pv } ∧
    (handleImageCapture s (some f) pv (FetchOutcome.failure k)).snd =
      [{ title := "Error"
         description := "Unable to identify this plant."
         variant := ToastVariant.destructive }] ∧
    ∀ t ∈ (handleImageCapture s (some f) pv (FetchOutcome.failure k)).snd,
      t.title ≠ "Plant Identified!" := by
  refine ⟨rfl, rfl, fun t ht => ?_⟩
  have he : t = { title := "Error"
                  description := "Unable to identify this plant."
                  variant := ToastVariant.destructive } := List.mem_singleton.mp ht
  subst he
  decide

/-- Witness for C6 at a concrete transport failure from `Idle`: the toast
list is exactly the destructive "Error" toast, whose title is not the
success title. -/
theorem failure_single_error_toast_witness :
    (handleImageCapture idleState (some ⟨"leaf.jpg"⟩) "data:preview"
        (FetchOutcome.failure FailureKind.networkError)).snd =
      [{ title := "Error"
         description := "Unable to identify this plant."
         variant := ToastVariant.destructive }] ∧
    ({ title := "Error"
       description := "Unable to identify this plant."
       variant := ToastVariant.destructive } : Toast).title ≠ "Plant Identified!" :=
  ⟨(failure_single_error_toast idleState ⟨"leaf.jpg"⟩ "data:preview"
      FailureKind.networkError).2.1,
   (failure_single_error_toast idleState ⟨"leaf.jpg"⟩ "data:preview"
      FailureKind.networkError).2.2 _ (List.mem_singleton.mpr rfl)⟩

/-- Claim C7 counterexample: `handleClear` never touches `isScanning`, so
clearing while in `Scanning` (flag set, preview shown) does not yield the
`Idle` state — the scanning flag survives the clear. -/
theorem clear_during_scanning_counterexample :
    handleClear
        { isScanning := true, imagePreview := some "data:img"
          result := none, fileInputValue := "" } ≠ idleState ∧
    (handleClear
        { isScanning := true, imagePreview := some "data:img"
          result := none, fileInputValue := "" }).isScanning = true := by
  refine ⟨?_, rfl⟩
  decide

/-- Claim C7 (amended): `handleClear` always succeeds and always discards
the image preview and the identification result and resets the file
input; invoked from any non-scanning state (`Previewing`, `Success`,
`Failed`) it yields exactly the `Idle` state, while from `Scanning` the
scanning flag stays set until the outstanding attempt completes. -/
theorem handleClear_resets (s : ScannerState) :
    (handleClear s).imagePreview = none ∧
    (handleClear s).result = none ∧
    (handleClear s).fileInputValue = "" ∧
    (s.isScanning = false → handleClear s = idleState) := by
  obtain ⟨b, ip, r, fv⟩ := s
  refine ⟨rfl, rfl, rfl, fun h => ?_⟩
  have hb : b = false := h
  subst hb
  rfl

/-- Witness for C7 at a concrete `Success` state: clearing yields exactly
`Idle`. -/
theorem handleClear_resets_witness :
    handleClear successState = idleState :=
  (handleClear_resets successState).2.2.2 rfl

/-- Claim C8 counterexample: the no-match toast and the error toast carry
the same `destructive` variant — the no-match notification is not of a
distinct Warning category. -/
theorem noMatch_error_same_variant_counterexample :
    (handleCompletion idleState (FetchOutcome.success ⟨some []⟩)).snd.map Toast.variant =
      [ToastVariant.destructive] ∧
    (handleCompletion idleState
        (FetchOutcome.failure FailureKind.networkError)).snd.map Toast.variant =
      [ToastVariant.destructive] :=
  ⟨rfl, rfl⟩

/-- Claim C8 (amended): the three notifications are — success
"Plant Identified!" carrying the scientific name with the default
variant, "No Match Found" with guidance text, and "Error" with generic
failure text; the latter two share the `destructive` variant, so the
no-match notification differs from the error notification only in its
title and description, not in category. -/
theorem toast_table
    (s : ScannerState) (resp : ClassificationResponseRaw) (top : Suggestion)
    (rest : List Suggestion) (h : resp.suggestions = some (top :: rest)) :
    (handleCompletion s (FetchOutcome.success resp)).snd =
      [{ title := "Plant Identified!"
         description := "Found: " ++ jsStr top.plant_name
         variant := ToastVariant.standard }] ∧
    (handleCompletion s (FetchOutcome.success ⟨some []⟩)).snd =
      [{ title := "No Match Found"
         description := "Try a clearer image or different angle."
         variant := ToastVariant.destructive }] ∧
    ∀ k, (handleCompletion s (FetchOutcome.failure k)).snd =
      [{ title := "Error"
         description := "Unable to identify this plant."
         variant := ToastVariant.destructive }] := by
  obtain ⟨sug⟩ := resp
  have hs : sug = some (top :: rest) := h
  subst hs
  exact ⟨rfl, rfl, fun k => rfl⟩

/-- Witness for C8 at the Monstera response. -/
theorem toast_table_witness :
    (handleCompletion idleState (FetchOutcome.success respMonstera)).snd =
      [{ title := "Plant Identified!"
         description := "Found: " ++ jsStr monsteraSuggestion.plant_name
         variant := ToastVariant.standard }] ∧
    (handleCompletion idleState (FetchOutcome.success ⟨some []⟩)).snd =
      [{ title := "No Match Found"
         description := "Try a clearer image or different angle."
         variant := ToastVariant.destructive }] :=
  ⟨(toast_table idleState respMonstera monsteraSuggestion [] rfl).1,
   (toast_table idleState respMonstera monsteraSuggestion [] rfl).2.1⟩

/-- Claim C9: every classification request is a POST whose headers include
the JSON content type and the `Api-Key` credential, and whose body is
exactly `{ images: [base64Image], similar_images: true }` with the single
encoded image of the current attempt. -/
theorem classifyRequest_shape (apiKey base64Image : String) :
    (classifyRequest apiKey base64Image).method = "POST" ∧
    ("Content-Type", "application/json") ∈ (classifyRequest apiKey base64Image).headers ∧
    ("Api-Key", apiKey) ∈ (classifyRequest apiKey base64Image).headers ∧
    (classifyRequest apiKey base64Image).body =
      { images := [base64Image], similar_images := true } := by
  refine ⟨rfl, ?_, ?_, rfl⟩
  · exact List.mem_cons_self _ _
  · exact List.mem_cons_of_mem _ (List.mem_cons_self _ _)

/-- Claim C10: for every capture of a provided file, the scanning flag is
set at the start of the attempt and the `finally` block resets it on
every completion path — success, no-match, and caught error alike — so
the handler never finishes with the flag still set. -/
theorem isScanning_reset
    (s : ScannerState) (f : RawFile) (pv : String) (o : FetchOutcome) :
    (startScan s).isScanning = true ∧
    (handleImageCapture s (some f) pv o).fst.isScanning = false := by
  refine ⟨rfl, ?_⟩
  cases o with
  | success data =>
      cases hn : normalize data with
      | none => simp [handleImageCapture, handleCompletion, startScan, hn]
      | some rec => simp [handleImageCapture, handleCompletion, startScan, hn]
  | failure k => rfl

end HerbalGarden
